import Mathlib

/-!
Verification of the packaging manifest of `ai-video-editor-agent`.

The repository's sole source file is `src/setup.py`, a two-line Python file:
an import from setuptools and a single call

  setup(name='ai-video-editor-agent', version='0.1.0', author='Hernane Bini',
        description='AI-Powered Video Editor Agent', packages=find_packages(),
        python_requires='>=3.9',
        install_requires=['opencv-python>=4.8.0', 'torch>=2.1.0',
                          'fastapi>=0.104.0', 'pytest>=7.4.0'])

We embed the file as a small Python-statement AST, evaluate the keyword
arguments of the `setup` call over a repository file tree into a `Manifest`
record, model requirement-string parsing, version comparison and dependency
resolution, and prove the structural claims the specification makes about
this manifest.
-/

namespace SetupPy

/-- Python expressions occurring in `src/setup.py`: string literals, list
literals, and calls with positional and keyword arguments. -/
inductive PyExpr where
  | strLit : String → PyExpr
  | listLit : List PyExpr → PyExpr
  | call : String → List PyExpr → List (String × PyExpr) → PyExpr

/-- Python statements: a `from M import a, b` line, an expression statement,
and (so that their absence is expressible) function and class definitions. -/
inductive PyStmt where
  | importFrom : String → List String → PyStmt
  | exprStmt : PyExpr → PyStmt
  | funcDef : String → PyStmt
  | classDef : String → PyStmt

/-- The AST of `src/setup.py`, statement by statement, transcribed from the
source: line 1 is the import, line 2 is the single `setup(...)` call with its
seven keyword arguments in source order. -/
def setup_py : List PyStmt :=
  [PyStmt.importFrom "setuptools" ["setup", "find_packages"],
   PyStmt.exprStmt (PyExpr.call "setup" []
     [("name", PyExpr.strLit "ai-video-editor-agent"),
      ("version", PyExpr.strLit "0.1.0"),
      ("author", PyExpr.strLit "Hernane Bini"),
      ("description", PyExpr.strLit "AI-Powered Video Editor Agent"),
      ("packages", PyExpr.call "find_packages" [] []),
      ("python_requires", PyExpr.strLit ">=3.9"),
      ("install_requires", PyExpr.listLit
        [PyExpr.strLit "opencv-python>=4.8.0",
         PyExpr.strLit "torch>=2.1.0",
         PyExpr.strLit "fastapi>=0.104.0",
         PyExpr.strLit "pytest>=7.4.0"])])]

/-- The repository's file tree beside `setup.py`, each file a list of path
components.  The repository contains exactly one file, `setup.py` itself. -/
def repoFiles : List (List String) := [["setup.py"]]

/-- Modelled from the spec: `setuptools.find_packages` is library code, not
part of this repository.  Following its documented behaviour, it reports as a
package (dotted name) every directory of the tree that contains an
`__init__.py` file. -/
def find_packages (files : List (List String)) : List String :=
  files.filterMap (fun p =>
    match p.dropLast, p.getLast? with
    | [], _ => none
    | d, some last => if last = "__init__.py" then some (String.intercalate "." d) else none
    | _, none => none)

/-- Evaluate a Python expression as a string: only string literals are. -/
def evalStr : PyExpr → Option String
  | PyExpr.strLit s => some s
  | _ => none

/-- Evaluate a list of Python expressions as strings. -/
def evalStrs : List PyExpr → Option (List String)
  | [] => some []
  | e :: es =>
    match evalStr e, evalStrs es with
    | some s, some ss => some (s :: ss)
    | _, _ => none

/-- Evaluate a Python expression as a list of strings: only list literals of
string literals are. -/
def evalStrList : PyExpr → Option (List String)
  | PyExpr.listLit es => evalStrs es
  | _ => none

/-- Evaluate a Python expression as a package list over a file tree: only the
argumentless call `find_packages()` is. -/
def evalPackagesExpr (files : List (List String)) : PyExpr → Option (List String)
  | PyExpr.call f args kws =>
    if f = "find_packages" && args.isEmpty && kws.isEmpty then some (find_packages files)
    else none
  | _ => none

/-- The keyword arguments of the `setup(...)` call(s) of a program. -/
def findSetupKwargs (prog : List PyStmt) : List (String × PyExpr) :=
  prog.foldr (fun s acc =>
    match s with
    | PyStmt.exprStmt (PyExpr.call f _ kws) => if f = "setup" then kws ++ acc else acc
    | _ => acc) []

/-- The names of the keyword arguments passed to `setup` in `src/setup.py`. -/
def setupKwargNames : List String := (findSetupKwargs setup_py).map Prod.fst

/-- The package metadata a `setup(...)` call declares. -/
structure Manifest where
  name : String
  version : String
  author : String
  description : String
  packages : List String
  python_requires : String
  install_requires : List String

/-- Look a keyword argument up and evaluate it as a string (empty if absent
or not a string literal). -/
def kwString (kws : List (String × PyExpr)) (k : String) : String :=
  match kws.lookup k with
  | some e => (evalStr e).getD ""
  | none => ""

/-- Look a keyword argument up and evaluate it as a list of strings. -/
def kwStringList (kws : List (String × PyExpr)) (k : String) : List String :=
  match kws.lookup k with
  | some e => (evalStrList e).getD []
  | none => []

/-- Look a keyword argument up and evaluate it as a package list. -/
def kwPackages (files : List (List String)) (kws : List (String × PyExpr)) (k : String) :
    List String :=
  match kws.lookup k with
  | some e => (evalPackagesExpr files e).getD []
  | none => []

/-- Evaluating `src/setup.py` over a repository file tree: the keyword
arguments of its `setup` call, each evaluated, give the declared metadata. -/
def evalSetupPy (files : List (List String)) : Manifest :=
  { name := kwString (findSetupKwargs setup_py) "name"
    version := kwString (findSetupKwargs setup_py) "version"
    author := kwString (findSetupKwargs setup_py) "author"
    description := kwString (findSetupKwargs setup_py) "description"
    packages := kwPackages files (findSetupKwargs setup_py) "packages"
    python_requires := kwString (findSetupKwargs setup_py) "python_requires"
    install_requires := kwStringList (findSetupKwargs setup_py) "install_requires" }

/-- The manifest `src/setup.py` declares over the actual repository tree. -/
def setup_py_manifest : Manifest := evalSetupPy repoFiles

/-- Split a character list at every occurrence of the two-character
specifier `>=`; the accumulator holds the current piece reversed. -/
def splitOnGeAux : List Char → List Char → List (List Char)
  | [], acc => [acc.reverse]
  | '>' :: '=' :: rest, acc => acc.reverse :: splitOnGeAux rest []
  | c :: rest, acc => splitOnGeAux rest (c :: acc)

/-- Split a character list at every dot. -/
def splitDotAux : List Char → List Char → List (List Char)
  | [], acc => [acc.reverse]
  | c :: rest, acc =>
    if c = '.' then acc.reverse :: splitDotAux rest []
    else splitDotAux rest (c :: acc)

/-- Whether a character is a decimal digit. -/
def isDecDigit (c : Char) : Bool :=
  decide (48 ≤ c.toNat) && decide (c.toNat ≤ 57)

/-- Read a nonempty all-digit character list as a natural number. -/
def charsToNatAux : List Char → Nat → Option Nat
  | [], n => some n
  | c :: rest, n =>
    if isDecDigit c then charsToNatAux rest (n * 10 + (c.toNat - 48)) else none

/-- Read a character list as a natural number; empty or non-digit fails. -/
def charsToNat : List Char → Option Nat
  | [] => none
  | cs => charsToNatAux cs 0

/-- Read every piece as a natural number, or fail. -/
def natsOf : List (List Char) → Option (List Nat)
  | [] => some []
  | cs :: rest =>
    match charsToNat cs, natsOf rest with
    | some n, some ns => some (n :: ns)
    | _, _ => none

/-- Parse a dotted numeric version from characters, e.g. `4.8.0 ↦ [4, 8, 0]`. -/
def versionFromChars (cs : List Char) : Option (List Nat) :=
  natsOf (splitDotAux cs [])

/-- Parse a dotted numeric version string. -/
def parseVersion (s : String) : Option (List Nat) :=
  versionFromChars s.toList

/-- Componentwise version order, missing trailing components read as zero:
`versionLe a b` means version `a` is at most version `b`. -/
def versionLe : List Nat → List Nat → Bool
  | [], _ => true
  | a :: as, [] => decide (a = 0) && versionLe as []
  | a :: as, b :: bs => decide (a < b) || (decide (a = b) && versionLe as bs)

/-- Parse a requirement string of the shape `name>=version` into the
dependency name and its minimum version. -/
def parseReq (s : String) : Option (String × List Nat) :=
  match splitOnGeAux s.toList [] with
  | [nm, ver] =>
    match versionFromChars ver with
    | some v => some (String.mk nm, v)
    | none => none
  | _ => none

/-- Parse a whole requirement list, failing if any entry fails. -/
def parseReqs : List String → Option (List (String × List Nat))
  | [] => some []
  | s :: rest =>
    match parseReq s, parseReqs rest with
    | some r, some rs => some (r :: rs)
    | _, _ => none

/-- Characters that PEP 440 version specifiers are built from. -/
def specifierChar (c : Char) : Bool :=
  c = '<' || c = '>' || c = '=' || c = '!' || c = '~' || c = ',' || c = ';' || c = '*'

/-- A requirement string is a bare minimum bound when it splits at `>=` into
exactly a name and a parsable dotted version, neither containing any further
specifier character: a single lower bound, no upper bound, pin or exclusion. -/
def isSimpleMinBound (s : String) : Bool :=
  match splitOnGeAux s.toList [] with
  | [nm, ver] =>
    nm.all (fun c => !specifierChar c) && ver.all (fun c => !specifierChar c) &&
      (versionFromChars ver).isSome
  | _ => false

/-- Parse a `python_requires` constraint of the shape `>=version`. -/
def parseMinPython (s : String) : Option (List Nat) :=
  match s.toList with
  | '>' :: '=' :: rest => versionFromChars rest
  | _ => none

/-- Whether a concrete runtime version satisfies the manifest's
`python_requires` constraint. -/
def pythonOk (m : Manifest) (v : List Nat) : Bool :=
  match parseMinPython m.python_requires with
  | some minv => versionLe minv v
  | none => false

/-- A distribution available in an installation environment. -/
structure PkgInEnv where
  name : String
  version : List Nat

/-- A dependency on `nm` at minimum version `minv` is resolvable in an
environment when the environment offers `nm` at that version or above. -/
def resolves (env : List PkgInEnv) (nm : String) (minv : List Nat) : Bool :=
  env.any (fun p => (p.name == nm) && versionLe minv p.version)

/-- Modelled from the spec: the installer's resolution is not part of this
repository.  Installing the package in an environment succeeds exactly when
every entry of `install_requires` parses and is resolvable there. -/
def installSucceeds (env : List PkgInEnv) (m : Manifest) : Bool :=
  match parseReqs m.install_requires with
  | some reqs => reqs.all (fun r => resolves env r.1 r.2)
  | none => false

/-- Whether a statement is an import. -/
def isImportStmt : PyStmt → Bool
  | PyStmt.importFrom _ _ => true
  | _ => false

/-- Whether a statement is a call to `setup`. -/
def isSetupCall : PyStmt → Bool
  | PyStmt.exprStmt (PyExpr.call f _ _) => f = "setup"
  | _ => false

/-- Whether a statement defines a function. -/
def definesFunction : PyStmt → Bool
  | PyStmt.funcDef _ => true
  | _ => false

/-- Whether a statement defines a class. -/
def definesClass : PyStmt → Bool
  | PyStmt.classDef _ => true
  | _ => false

/-- The names called anywhere inside an expression, to the given depth (the
fuel bounds the recursion; depth 8 covers the two-level `setup.py` AST). -/
def exprCallees : Nat → PyExpr → List String
  | 0, _ => []
  | Nat.succ _, PyExpr.strLit _ => []
  | Nat.succ fuel, PyExpr.listLit es =>
    es.foldr (fun e acc => exprCallees fuel e ++ acc) []
  | Nat.succ fuel, PyExpr.call f args kws =>
    f :: (args.foldr (fun e acc => exprCallees fuel e ++ acc) [] ++
      kws.foldr (fun p acc => exprCallees fuel p.2 ++ acc) [])

/-- The names called anywhere inside a statement. -/
def stmtCallees (fuel : Nat) : PyStmt → List String
  | PyStmt.exprStmt e => exprCallees fuel e
  | _ => []

/-- Every name called anywhere in a program. -/
def progCallees (prog : List PyStmt) : List String :=
  prog.foldr (fun s acc => stmtCallees 8 s ++ acc) []

/-- Names whose call would read an environment variable. -/
def envReadNames : List String :=
  ["os.environ", "os.environ.get", "os.getenv", "environ", "getenv"]

end SetupPy

namespace SetupPy

/-- C1: parsing the manifest yields package name "ai-video-editor-agent" and
version "0.1.0", the exact values bound to the `name` and `version` keyword
arguments of the single `setup` call. -/
theorem c1_name_and_version :
    setup_py_manifest.name = "ai-video-editor-agent" ∧
      setup_py_manifest.version = "0.1.0" ∧
      (findSetupKwargs setup_py).lookup "name" =
        some (PyExpr.strLit "ai-video-editor-agent") ∧
      (findSetupKwargs setup_py).lookup "version" = some (PyExpr.strLit "0.1.0") :=
  ⟨rfl, rfl, rfl, rfl⟩

/-- C2: `install_requires` has exactly four entries, and they parse exactly to
opencv-python ≥ 4.8.0, torch ≥ 2.1.0, fastapi ≥ 0.104.0 and pytest ≥ 7.4.0. -/
theorem c2_four_dependencies :
    setup_py_manifest.install_requires.length = 4 ∧
      setup_py_manifest.install_requires =
        ["opencv-python>=4.8.0", "torch>=2.1.0", "fastapi>=0.104.0", "pytest>=7.4.0"] ∧
      parseReqs setup_py_manifest.install_requires =
        some [("opencv-python", [4, 8, 0]), ("torch", [2, 1, 0]),
          ("fastapi", [0, 104, 0]), ("pytest", [7, 4, 0])] :=
  ⟨rfl, rfl, rfl⟩

/-- C3: installation of the declared package succeeds exactly when each of the
four named dependencies is resolvable at or above its declared minimum; if any
one is not resolvable, it fails. -/
theorem c3_install_iff_deps_resolvable (env : List PkgInEnv) :
    installSucceeds env setup_py_manifest =
      (resolves env "opencv-python" [4, 8, 0] &&
        (resolves env "torch" [2, 1, 0] &&
          (resolves env "fastapi" [0, 104, 0] && resolves env "pytest" [7, 4, 0]))) := by
  show (resolves env "opencv-python" [4, 8, 0] &&
      (resolves env "torch" [2, 1, 0] &&
        (resolves env "fastapi" [0, 104, 0] &&
          (resolves env "pytest" [7, 4, 0] && true)))) = _
  simp [Bool.and_true]

/-- C4: `python_requires` is the constraint ">=3.9", whose minimum parses to
version 3.9, and a runtime version satisfies it exactly when it is at least
3.9 (so every version below 3.9 violates it). -/
theorem c4_python_requires :
    setup_py_manifest.python_requires = ">=3.9" ∧
      parseMinPython setup_py_manifest.python_requires = some [3, 9] ∧
      ∀ v : List Nat, pythonOk setup_py_manifest v = versionLe [3, 9] v :=
  ⟨rfl, rfl, fun _ => rfl⟩

/-- C5: the manifest declares author "Hernane Bini" and description
"AI-Powered Video Editor Agent", the exact values bound to the `author` and
`description` keyword arguments of the `setup` call. -/
theorem c5_author_and_description :
    setup_py_manifest.author = "Hernane Bini" ∧
      setup_py_manifest.description = "AI-Powered Video Editor Agent" ∧
      (findSetupKwargs setup_py).lookup "author" = some (PyExpr.strLit "Hernane Bini") ∧
      (findSetupKwargs setup_py).lookup "description" =
        some (PyExpr.strLit "AI-Powered Video Editor Agent") :=
  ⟨rfl, rfl, rfl, rfl⟩

/-- C6: every entry of `install_requires` is a single `>=` lower bound with no
upper bound, exact pin or exclusion. -/
theorem c6_all_min_bounds :
    setup_py_manifest.install_requires.all isSimpleMinBound = true := by decide

/-- C7: the sole source file has exactly two statements, one import and one
`setup()` call, and defines no functions or classes. -/
theorem c7_two_line_manifest_only :
    setup_py.length = 2 ∧
      setup_py.countP isImportStmt = 1 ∧
      setup_py.countP isSetupCall = 1 ∧
      setup_py.countP definesFunction = 0 ∧
      setup_py.countP definesClass = 0 := by
  refine ⟨rfl, ?_, ?_, ?_, ?_⟩ <;> decide

/-- C8: the `setup` call passes exactly the seven metadata keyword arguments,
none of them `entry_points`, `scripts` or `console_scripts`; the only names
called anywhere in the source are `setup` and `find_packages`, so no
environment variable is read. -/
theorem c8_no_cli_no_env :
    setupKwargNames =
        ["name", "version", "author", "description", "packages",
          "python_requires", "install_requires"] ∧
      "entry_points" ∉ setupKwargNames ∧
      "scripts" ∉ setupKwargNames ∧
      "console_scripts" ∉ setupKwargNames ∧
      progCallees setup_py = ["setup", "find_packages"] ∧
      envReadNames.all (fun f => decide (f ∉ progCallees setup_py)) = true := by
  refine ⟨rfl, ?_, ?_, ?_, rfl, ?_⟩ <;> decide

/-- C9: the `packages` argument is the call `find_packages()`, and over the
actual repository tree — which has no directory with an `__init__.py` — it
evaluates to the empty package list, so the distribution declares zero
importable packages. -/
theorem c9_no_packages :
    (findSetupKwargs setup_py).lookup "packages" = some (PyExpr.call "find_packages" [] []) ∧
      find_packages repoFiles = [] ∧
      setup_py_manifest.packages = [] :=
  ⟨rfl, rfl, rfl⟩

/-- C10: evaluating the manifest is deterministic — any two evaluations of
`src/setup.py` over the same repository contents produce identical metadata
(name, version, author, description, python_requires, install_requires and
packages alike). -/
theorem c10_deterministic (t₁ t₂ : List (List String)) (h : t₁ = t₂) :
    evalSetupPy t₁ = evalSetupPy t₂ := by rw [h]

/-- Witness for C10 at the actual repository tree. -/
theorem c10_deterministic_witness :
    evalSetupPy [["setup.py"]] = evalSetupPy [["setup.py"]] :=
  c10_deterministic [["setup.py"]] [["setup.py"]] rfl

end SetupPy
